import Mathlib

/-!
Shallow embedding of the learning-platform backend
(`src/supabase/functions/server/index.tsx`) and proofs of the spec claims.

The server is a set of JSON-over-HTTP handlers over an external key-value
store.  Each handler is embedded as a pure Lean function: the key-value
store is passed and returned explicitly, external collaborators (the AI
providers, `JSON.parse`, `encodeURIComponent`) are parameters, and the
wall clock is an explicit `now : Nat` argument.  JavaScript `x || y`
expressions on possibly-`undefined` values are embedded by explicit
truthiness helpers (`jsOr*` below): a JS number is falsy iff it is `0`,
a JS string is falsy iff it is empty, `undefined` is falsy, and an array
is always truthy.
-/

namespace LearnServer

/-- JS `a || d` where `a : string | undefined` and the result is used as a
string: `undefined` and `""` are falsy. -/
def jsOrS (a : Option String) (d : String) : String :=
  match a with
  | none => d
  | some s => if s = "" then d else s

/-- JS `a || d` where `a : number | undefined` and the result is used as a
number: `undefined` and `0` are falsy. -/
def jsOrI (a : Option Int) (d : Int) : Int :=
  match a with
  | none => d
  | some n => if n = 0 then d else n

/-- JS `a || b` where both operands are `number | undefined` and the result
may itself be `undefined`. -/
def jsOrOptI (a b : Option Int) : Option Int :=
  match a with
  | none => b
  | some n => if n = 0 then b else some n

/-- JS `a || b` where both operands are `string | undefined` and the result
may itself be `undefined`. -/
def jsOrOptS (a b : Option String) : Option String :=
  match a with
  | none => b
  | some s => if s = "" then b else some s

/-- JS `a || d` where `a : array | undefined`: a JS array is truthy even
when empty, so only `undefined` falls through to the default. -/
def jsOrArr (a : Option (List String)) (d : List String) : List String :=
  match a with
  | none => d
  | some l => l

/-! ## Progress records (`POST /progress`, index.tsx lines 424-456) -/

/-- The request body of `POST /progress` after destructuring
`{ moduleId, status, timeSpent, performanceScore, notes, completedTopics }`;
every field other than `moduleId` may be absent (`undefined`). -/
structure ProgressBody where
  status : Option String
  timeSpent : Option Int
  performanceScore : Option Int
  notes : Option String
  completedTopics : Option (List String)
deriving DecidableEq, Repr

/-- The stored record at key `progress:{userId}:{moduleId}`. -/
structure ProgressRecord where
  userId : String
  moduleId : String
  status : String
  timeSpent : Int
  performanceScore : Option Int
  notes : Option String
  completedTopics : List String
  lastUpdated : Nat
  completedAt : Option Nat
deriving DecidableEq, Repr

/-- The read-modify-write merge performed by the `POST /progress` handler
(index.tsx lines 435-448).  `existing` is `kv.get(progressKey)`, which the
code defaults to `{}` when absent, so each field read of a missing record
yields `undefined`; `now` is `new Date()`.

Field by field (JS on the right):
* `status: status || existingProgress.status || 'not-started'`
* `timeSpent: (existingProgress.timeSpent || 0) + (timeSpent || 0)`
* `performanceScore: performanceScore || existingProgress.performanceScore`
* `notes: notes || existingProgress.notes`
* `completedTopics: completedTopics || existingProgress.completedTopics || []`
* `lastUpdated: new Date().toISOString()`
* `completedAt: status === 'completed' ? new Date().toISOString()
               : existingProgress.completedAt` -/
def progressMerge (userId moduleId : String) (existing : Option ProgressRecord)
    (b : ProgressBody) (now : Nat) : ProgressRecord where
  userId := userId
  moduleId := moduleId
  status := jsOrS b.status (jsOrS (existing.map ProgressRecord.status) "not-started")
  timeSpent := jsOrI (existing.map ProgressRecord.timeSpent) 0 + jsOrI b.timeSpent 0
  performanceScore := jsOrOptI b.performanceScore (existing.bind ProgressRecord.performanceScore)
  notes := jsOrOptS b.notes (existing.bind ProgressRecord.notes)
  completedTopics :=
    jsOrArr b.completedTopics (jsOrArr (existing.map ProgressRecord.completedTopics) [])
  lastUpdated := now
  completedAt :=
    if b.status = some "completed" then some now else existing.bind ProgressRecord.completedAt

/-- A sequence of sequential `POST /progress` calls for one (user, module)
pair: each call reads the stored record, merges, and stores the result. -/
def runProgress (userId moduleId : String) (start : Option ProgressRecord) :
    List (ProgressBody × Nat) → Option ProgressRecord
  | [] => start
  | (b, t) :: rest =>
      runProgress userId moduleId (some (progressMerge userId moduleId start b t)) rest

/-- The cumulative `timeSpent` of a possibly-absent stored record
(an absent record contributes `0`, as in the handler). -/
def timeSpentOf : Option ProgressRecord → Int
  | none => 0
  | some p => p.timeSpent

/-! ## Achievements (`POST /achievements`, index.tsx lines 862-891) -/

/-- The record stored at `achievements:{userId}`. -/
structure Achievements where
  unlocked : List String
  xp : Int
  level : Int
  streak : Int
deriving DecidableEq, Repr

/-- The default achievements state used whenever `kv.get` returns nothing
(index.tsx lines 872-877): `{ unlocked: [], xp: 0, level: 1, streak: 0 }`. -/
def initialAchievements : Achievements where
  unlocked := []
  xp := 0
  level := 1
  streak := 0

/-- The `POST /achievements` update (index.tsx lines 879-883): if the id is
not yet in `unlocked`, push it, add the submitted xp, and recompute
`level = Math.floor(xp / 1000) + 1`; otherwise leave the state unchanged.
`Int.fdiv` is floor division, matching `Math.floor` on the quotient. -/
def updateAchievements (a : Achievements) (achievementId : String) (xp : Int) : Achievements :=
  if a.unlocked.contains achievementId then a
  else
    { a with
      unlocked := a.unlocked ++ [achievementId]
      xp := a.xp + xp
      level := (a.xp + xp).fdiv 1000 + 1 }

/-- A sequence of `POST /achievements` calls, each a read-modify-write on
the single stored record. -/
def runAchievements (a : Achievements) : List (String × Int) → Achievements
  | [] => a
  | (id, xp) :: rest => runAchievements (updateAchievements a id xp) rest

/-! ## Remaining record types -/

/-- One chat message as stored at `chat:{userId}` (index.tsx lines 751-754). -/
structure ChatMsg where
  role : String
  content : String
  timestamp : Nat
deriving DecidableEq, Repr

/-- The profile stored at `profile:{userId}` (index.tsx lines 237-253).
`userId`, `email`, `name` come from the verified identity; the remaining
fields come from the client body and may be absent. -/
structure Profile where
  userId : String
  email : String
  name : String
  background : Option String
  currentRole : Option String
  yearsOfExperience : Option String
  knownSkills : List String
  targetGoal : Option String
  preferredLanguage : Option String
  learningPace : Option String
  hoursPerWeek : Option String
  learningStyle : Option String
  onboardingComplete : Bool
  createdAt : Nat
  updatedAt : Nat
deriving DecidableEq, Repr

/-- A resource stub inside a roadmap module. -/
structure Resource where
  type : String
  title : String
  url : String
deriving DecidableEq, Repr

/-- A learning module inside a roadmap phase. -/
structure RoadmapModule where
  id : String
  title : String
  description : String
  topics : List String
  estimatedHours : Nat
  difficulty : String
  resources : List Resource
deriving DecidableEq, Repr

/-- A phase of a roadmap. -/
structure Phase where
  id : String
  title : String
  description : String
  estimatedWeeks : Nat
  modules : List RoadmapModule
deriving DecidableEq, Repr

/-- The `content` part of a roadmap record. -/
structure RoadmapContent where
  phases : List Phase
  totalEstimatedWeeks : Nat
  skillsToMaster : List String
deriving DecidableEq, Repr

/-- The record stored at `roadmap:{userId}`.  The AI path (index.tsx lines
387-393) stores `targetGoal: profile.targetGoal` verbatim (possibly absent)
and no `isTemplate` field (embedded as `false`); the template path stores
the defaulted goal and `isTemplate: true`. -/
structure Roadmap where
  userId : String
  targetGoal : Option String
  content : RoadmapContent
  createdAt : Nat
  lastUpdated : Nat
  isTemplate : Bool
deriving DecidableEq, Repr

/-- A passive YouTube search reference built for one search query
(index.tsx lines 623-628). -/
structure YoutubeVideo where
  title : String
  searchUrl : String
  embedQuery : String
deriving DecidableEq, Repr

/-- The JSON object expected from the topic-content provider
(`JSON.parse` of the extracted brace-delimited substring, or one of the two
hand-built fallback objects). -/
structure GeneratedContent where
  explanation : String
  keyPoints : List String
  applications : List String
  pitfalls : List String
  practiceIdeas : List String
  youtubeSearchQueries : List String
deriving DecidableEq, Repr

/-- The record stored at `topic-content:{userId}:{moduleId}:{topic}`
(index.tsx lines 634-642): the generated content spread together with the
video references and the request metadata. -/
structure TopicContent where
  explanation : String
  keyPoints : List String
  applications : List String
  pitfalls : List String
  practiceIdeas : List String
  youtubeSearchQueries : List String
  youtubeVideos : List YoutubeVideo
  topic : String
  moduleId : String
  moduleTitle : String
  difficulty : String
  generatedAt : Nat
deriving DecidableEq, Repr

/-! ## The key-value store

The store is an external collaborator with `get(key)` / `set(key, value)`
over string keys; it is embedded as a function from keys to optional
values.  Values are JSON blobs in the real store; here they are tagged
with the record type the handlers write at the corresponding key. -/

/-- A stored JSON value, tagged by the record type the server writes. -/
inductive StoreVal where
  | profileV : Profile → StoreVal
  | roadmapV : Roadmap → StoreVal
  | progressV : ProgressRecord → StoreVal
  | topicContentV : TopicContent → StoreVal
  | chatV : List ChatMsg → StoreVal
  | achievementsV : Achievements → StoreVal
deriving DecidableEq

/-- The key-value store. -/
def Store : Type := String → Option StoreVal

/-- The store read `kv.get(key)`. -/
def kvGet (s : Store) (k : String) : Option StoreVal := s k

/-- The store write `kv.set(key, value)`: last write wins per key. -/
def kvSet (s : Store) (k : String) (v : StoreVal) : Store :=
  fun k2 => if k2 = k then some v else s k2

/-- Key `profile:{userId}`. -/
def profileKey (userId : String) : String := "profile:" ++ userId

/-- Key `roadmap:{userId}`. -/
def roadmapKey (userId : String) : String := "roadmap:" ++ userId

/-- Key `chat:{userId}`. -/
def chatKey (userId : String) : String := "chat:" ++ userId

/-- Key `topic-content:{userId}:{moduleId}:{topic}`. -/
def topicContentKey (userId moduleId topic : String) : String :=
  "topic-content:" ++ userId ++ ":" ++ moduleId ++ ":" ++ topic

/-- Read the profile record: `await kv.get(profile:userId)`.  (No handler
ever writes a value of another tag at a profile key.) -/
def getProfile (s : Store) (userId : String) : Option Profile :=
  match s (profileKey userId) with
  | some (StoreVal.profileV p) => some p
  | _ => none

/-- Read the chat history with the handler's default:
`await kv.get(chat:userId) || []` (index.tsx line 750). -/
def getChat (s : Store) (userId : String) : List ChatMsg :=
  match s (chatKey userId) with
  | some (StoreVal.chatV h) => h
  | _ => []

/-- Read cached topic content: `await kv.get(contentKey)`
(index.tsx line 490). -/
def getTopicContent (s : Store) (userId moduleId topic : String) : Option TopicContent :=
  match s (topicContentKey userId moduleId topic) with
  | some (StoreVal.topicContentV c) => some c
  | _ => none

/-! ## External AI providers

Each provider call is a single awaited HTTP request; its outcome is a
parameter of the handler embedding.  Handlers additionally return the
number of provider calls they performed. -/

/-- Outcome of one OpenAI chat-completion call: non-2xx failure, or a 2xx
response whose `choices[0].message.content` is the given string. -/
inductive ProviderOutcome where
  | failure
  | success : String → ProviderOutcome
deriving DecidableEq

/-- Outcome of one HuggingFace call (index.tsx lines 537-585): the fetch
threw, the response was non-2xx, the response JSON was missing
`choices[0].message.content`, or that content is the given string. -/
inductive HFOutcome where
  | fetchError
  | badStatus
  | malformed
  | content : String → HFOutcome
deriving DecidableEq

/-! ## Chat handler (`POST /chat`, index.tsx lines 687-768) -/

/-- The canned 200 response sent when no OpenAI key is configured
(index.tsx lines 699-702). -/
def chatSetupMessage : String :=
  "The AI chat assistant requires an OpenAI API key to be configured. Please add your OpenAI API key to use this feature."

/-- Result of `POST /chat`: the canned setup message (200 with
`requiresSetup: true`), a 500 provider error, or the assistant reply. -/
inductive ChatResult where
  | setupRequired : String → ChatResult
  | providerError : String → ChatResult
  | ok : String → ChatResult
deriving DecidableEq

/-- Trim a chat history to its last 50 entries (index.tsx lines 757-759):
`if (chatHistory.length > 50) chatHistory.splice(0, chatHistory.length - 50)`. -/
def trimChat (l : List ChatMsg) : List ChatMsg :=
  if l.length > 50 then l.drop (l.length - 50) else l

/-- The `POST /chat` handler.  The OpenAI key is checked first (line 697);
without it the canned setup message is returned before any store access.
With a key, the handler reads profile and roadmap only to build the prompt
(lines 706-724, reads do not change the store), calls the provider once,
and on success appends the timestamped user message and assistant reply to
the stored history, trims to the last 50 entries, and persists.  Returns
(result, store after the call, number of provider calls). -/
def chatHandler (openAiKey : Option String) (userId message : String)
    (provider : ProviderOutcome) (store : Store) (now : Nat) :
    ChatResult × Store × Nat :=
  match openAiKey with
  | none => (ChatResult.setupRequired chatSetupMessage, store, 0)
  | some _ =>
    match provider with
    | ProviderOutcome.failure =>
        (ChatResult.providerError "Failed to get response from AI assistant", store, 1)
    | ProviderOutcome.success aiResponse =>
        let chatHistory := getChat store userId
        let appended := chatHistory ++
          [⟨"user", message, now⟩, ⟨"assistant", aiResponse, now⟩]
        (ChatResult.ok aiResponse,
          kvSet store (chatKey userId) (StoreVal.chatV (trimChat appended)), 1)

/-! ## Topic-content handler (`POST /generate-topic-content`,
index.tsx lines 475-659) -/

/-- The request body after destructuring
`{ moduleId, moduleTitle, topic, difficulty, targetGoal }`. -/
structure TopicBody where
  moduleId : String
  moduleTitle : String
  topic : String
  difficulty : String
  targetGoal : String
deriving DecidableEq, Repr

/-- Index of the last occurrence of `c` in `cs`. -/
def lastIdxOf (c : Char) (cs : List Char) : Option Nat :=
  match cs.reverse.findIdx? (· = c) with
  | none => none
  | some k => some (cs.length - 1 - k)

/-- The regex scan `content.match(/\x7b[\s\S]*\x7d/)` (index.tsx line 590):
the greedy match runs from the first opening brace to the last closing
brace, and exists iff some closing brace lies strictly after the first
opening brace. -/
def extractJson (s : String) : Option String :=
  let cs := s.toList
  match cs.findIdx? (· = '\x7b'), lastIdxOf '\x7d' cs with
  | some i, some j => if i < j then some ⟨(cs.drop i).take (j - i + 1)⟩ else none
  | some _, none => none
  | none, _ => none

/-- The fallback content built when no brace-delimited substring is found
in the model output (index.tsx lines 593-600): the raw text becomes the
explanation. -/
def noJsonFallback (topic targetGoal rawContent : String) : GeneratedContent where
  explanation := rawContent
  keyPoints := []
  applications := []
  pitfalls := []
  practiceIdeas := []
  youtubeSearchQueries :=
    [topic ++ " tutorial", topic ++ " explained", topic ++ " " ++ targetGoal]

/-- The degraded content built when parsing throws (index.tsx lines
604-614), also reached when the provider response is missing
`choices[0].message.content` (the throw on lines 578/584 lands in the same
catch). -/
def parseErrorFallback (topic targetGoal : String) : GeneratedContent where
  explanation := "Failed to generate detailed content. Topic: " ++ topic
  keyPoints := ["Learn about " ++ topic, "Practice " ++ topic, "Apply " ++ topic]
  applications := ["Understanding " ++ topic]
  pitfalls := ["Skipping fundamentals"]
  practiceIdeas := ["Practice " ++ topic]
  youtubeSearchQueries :=
    [topic ++ " tutorial", topic ++ " explained", topic ++ " " ++ targetGoal]

/-- Result of `POST /generate-topic-content`: the content (both the cache
hit and the freshly generated path return `{ content }`), the HF_TOKEN
configuration error, or one of the two provider-failure errors. -/
inductive TopicResult where
  | ok : TopicContent → TopicResult
  | notConfigured : String → TopicResult
  | hfBadStatus : TopicResult
  | hfFetchError : TopicResult
deriving DecidableEq

/-- The `POST /generate-topic-content` handler.  Order of checks, as in the
source: cache lookup at `topic-content:{userId}:{moduleId}:{topic}` first
(lines 489-495, hit returns the stored record with no provider call and no
write); then the `HF_TOKEN` check (lines 497-504); then one provider call,
whose content is brace-scanned and parsed (`parseJson` embeds `JSON.parse`,
an external library function; failure selects the degraded fallback), the
search queries are turned into passive search URLs (`encode` embeds
`encodeURIComponent`), and the merged record is cached and returned.
Returns (result, store after the call, number of provider calls). -/
def generateTopicContent (store : Store) (userId : String) (b : TopicBody)
    (hfToken : Option String) (hf : HFOutcome)
    (parseJson : String → Option GeneratedContent) (encode : String → String)
    (now : Nat) : TopicResult × Store × Nat :=
  let contentKey := topicContentKey userId b.moduleId b.topic
  match getTopicContent store userId b.moduleId b.topic with
  | some existingContent => (TopicResult.ok existingContent, store, 0)
  | none =>
    match hfToken with
    | none =>
        (TopicResult.notConfigured
          "HuggingFace API key not configured. Please add HF_TOKEN to environment variables.",
          store, 0)
    | some _ =>
      let finish : GeneratedContent → TopicResult × Store × Nat := fun g =>
        let youtubeVideos := g.youtubeSearchQueries.map fun query =>
          { title := query
            searchUrl := "https://www.youtube.com/results?search_query=" ++ encode query
            embedQuery := query }
        let content : TopicContent :=
          { explanation := g.explanation
            keyPoints := g.keyPoints
            applications := g.applications
            pitfalls := g.pitfalls
            practiceIdeas := g.practiceIdeas
            youtubeSearchQueries := g.youtubeSearchQueries
            youtubeVideos := youtubeVideos
            topic := b.topic
            moduleId := b.moduleId
            moduleTitle := b.moduleTitle
            difficulty := b.difficulty
            generatedAt := now }
        (TopicResult.ok content, kvSet store contentKey (StoreVal.topicContentV content), 1)
      match hf with
      | HFOutcome.fetchError => (TopicResult.hfFetchError, store, 1)
      | HFOutcome.badStatus => (TopicResult.hfBadStatus, store, 1)
      | HFOutcome.malformed => finish (parseErrorFallback b.topic b.targetGoal)
      | HFOutcome.content text =>
        match extractJson text with
        | none => finish (noJsonFallback b.topic b.targetGoal text)
        | some j =>
          match parseJson j with
          | some g => finish g
          | none => finish (parseErrorFallback b.topic b.targetGoal)

/-! ## Roadmap generation (`POST /generate-roadmap`, index.tsx lines
291-401, and `generateTemplateRoadmap`, lines 894-1108) -/

/-- JS `s.includes(sub)`: substring containment. -/
def jsIncludes (s sub : String) : Bool := decide (sub.toList <:+: s.toList)

/-- The hand-authored `'Data Scientist'` template (index.tsx lines
900-1001). -/
def dataScientistTemplate : RoadmapContent where
  phases :=
    [ { id := "phase-1"
        title := "Foundations"
        description := "Build a strong foundation in programming, mathematics, and statistics"
        estimatedWeeks := 8
        modules :=
          [ { id := "module-1-1"
              title := "Python Programming Basics"
              description := "Master Python syntax, data structures, and basic programming concepts"
              topics := ["Variables & Data Types", "Control Flow", "Functions", "OOP Basics", "File I/O"]
              estimatedHours := 40
              difficulty := "beginner"
              resources := [] }
          , { id := "module-1-2"
              title := "Statistics & Probability"
              description := "Understand statistical concepts essential for data science"
              topics := ["Descriptive Statistics", "Probability Distributions", "Hypothesis Testing", "Correlation"]
              estimatedHours := 35
              difficulty := "beginner"
              resources := [] }
          , { id := "module-1-3"
              title := "Linear Algebra & Calculus"
              description := "Learn mathematical foundations for machine learning"
              topics := ["Vectors & Matrices", "Matrix Operations", "Derivatives", "Gradients"]
              estimatedHours := 30
              difficulty := "intermediate"
              resources := [] } ] }
    , { id := "phase-2"
        title := "Data Analysis & Visualization"
        description := "Learn to manipulate, analyze, and visualize data"
        estimatedWeeks := 6
        modules :=
          [ { id := "module-2-1"
              title := "NumPy & Pandas"
              description := "Master data manipulation with NumPy and Pandas"
              topics := ["NumPy Arrays", "Pandas DataFrames", "Data Cleaning", "Data Transformation"]
              estimatedHours := 30
              difficulty := "intermediate"
              resources := [] }
          , { id := "module-2-2"
              title := "Data Visualization"
              description := "Create compelling visualizations with Matplotlib and Seaborn"
              topics := ["Matplotlib Basics", "Seaborn", "Statistical Plots", "Interactive Visualizations"]
              estimatedHours := 25
              difficulty := "intermediate"
              resources := [] } ] }
    , { id := "phase-3"
        title := "Machine Learning"
        description := "Build and deploy machine learning models"
        estimatedWeeks := 10
        modules :=
          [ { id := "module-3-1"
              title := "Supervised Learning"
              description := "Learn regression and classification algorithms"
              topics := ["Linear Regression", "Logistic Regression", "Decision Trees", "Random Forests", "SVM"]
              estimatedHours := 45
              difficulty := "advanced"
              resources := [] }
          , { id := "module-3-2"
              title := "Unsupervised Learning"
              description := "Explore clustering and dimensionality reduction"
              topics := ["K-Means Clustering", "Hierarchical Clustering", "PCA", "t-SNE"]
              estimatedHours := 35
              difficulty := "advanced"
              resources := [] }
          , { id := "module-3-3"
              title := "Model Evaluation & Deployment"
              description := "Evaluate models and deploy to production"
              topics := ["Cross-Validation", "Hyperparameter Tuning", "Model Metrics", "Flask API", "Docker"]
              estimatedHours := 30
              difficulty := "advanced"
              resources := [] } ] } ]
  totalEstimatedWeeks := 24
  skillsToMaster := ["Python", "Statistics", "Machine Learning", "Data Visualization", "SQL"]

/-- The hand-authored `'Full-Stack Developer'` template (index.tsx lines
1002-1094). -/
def fullStackDeveloperTemplate : RoadmapContent where
  phases :=
    [ { id := "phase-1"
        title := "Frontend Fundamentals"
        description := "Master the building blocks of web development"
        estimatedWeeks := 6
        modules :=
          [ { id := "module-1-1"
              title := "HTML & CSS"
              description := "Learn to structure and style web pages"
              topics := ["HTML5 Semantics", "CSS Flexbox", "CSS Grid", "Responsive Design", "CSS Animations"]
              estimatedHours := 30
              difficulty := "beginner"
              resources := [] }
          , { id := "module-1-2"
              title := "JavaScript Fundamentals"
              description := "Master modern JavaScript"
              topics := ["ES6+ Syntax", "DOM Manipulation", "Async/Await", "Promises", "Fetch API"]
              estimatedHours := 40
              difficulty := "beginner"
              resources := [] } ] }
    , { id := "phase-2"
        title := "Modern Frontend"
        description := "Build interactive UIs with React"
        estimatedWeeks := 8
        modules :=
          [ { id := "module-2-1"
              title := "React Fundamentals"
              description := "Learn component-based development"
              topics := ["Components", "Props & State", "Hooks", "Context API", "React Router"]
              estimatedHours := 45
              difficulty := "intermediate"
              resources := [] }
          , { id := "module-2-2"
              title := "State Management"
              description := "Manage complex application state"
              topics := ["Redux", "Redux Toolkit", "Context Patterns", "TanStack Query"]
              estimatedHours := 30
              difficulty := "intermediate"
              resources := [] } ] }
    , { id := "phase-3"
        title := "Backend Development"
        description := "Build robust server-side applications"
        estimatedWeeks := 10
        modules :=
          [ { id := "module-3-1"
              title := "Node.js & Express"
              description := "Create RESTful APIs"
              topics := ["Express Setup", "Routing", "Middleware", "Error Handling", "Authentication"]
              estimatedHours := 40
              difficulty := "intermediate"
              resources := [] }
          , { id := "module-3-2"
              title := "Databases"
              description := "Work with SQL and NoSQL databases"
              topics := ["PostgreSQL", "MongoDB", "ORMs", "Database Design", "Transactions"]
              estimatedHours := 35
              difficulty := "advanced"
              resources := [] }
          , { id := "module-3-3"
              title := "Deployment & DevOps"
              description := "Deploy applications to production"
              topics := ["Docker", "CI/CD", "AWS/Vercel", "Monitoring", "Testing"]
              estimatedHours := 30
              difficulty := "advanced"
              resources := [] } ] } ]
  totalEstimatedWeeks := 24
  skillsToMaster := ["React", "Node.js", "Express", "PostgreSQL", "MongoDB", "Docker", "AWS"]

/-- The keys of the `templates` object, in insertion order
(`Object.keys(templates)`). -/
def templateKeys : List String := ["Data Scientist", "Full-Stack Developer"]

/-- Lookup `templates[key]` for the two keys that can be selected. -/
def templates (key : String) : RoadmapContent :=
  if key = "Data Scientist" then dataScientistTemplate else fullStackDeveloperTemplate

/-- The helper `generateTemplateRoadmap(profile)` (index.tsx lines 894-1108):
defaults the goal (`profile.targetGoal || 'Full-Stack Developer'`), selects
`Object.keys(templates).find(key => goal.includes(key)) || 'Full-Stack
Developer'`, and wraps the selected template with the user id, goal,
timestamps, and `isTemplate: true`.  (The `language` local on line 896 is
computed but never used.) -/
def generateTemplateRoadmap (profile : Profile) (now : Nat) : Roadmap :=
  let goal := jsOrS profile.targetGoal "Full-Stack Developer"
  let templateKey :=
    ((templateKeys.find? fun key => jsIncludes goal key).getD "Full-Stack Developer")
  { userId := profile.userId
    targetGoal := some goal
    content := templates templateKey
    createdAt := now
    lastUpdated := now
    isTemplate := true }

/-- Result of `POST /generate-roadmap`: the missing-profile precondition
error (400), a 500 from `JSON.parse` throwing on the provider content, or
the roadmap (AI-generated or template). -/
inductive RoadmapResult where
  | noProfile : String → RoadmapResult
  | parseError : RoadmapResult
  | ok : Roadmap → RoadmapResult
deriving DecidableEq

/-- The `POST /generate-roadmap` handler (index.tsx lines 291-401).  Order
of checks, as in the source: profile lookup first (line 298); then the
OpenAI key check (line 303, absent key falls back to the template and
persists it); then one provider call (non-2xx falls back to the template
and persists it); on success the content is parsed (`parseRoadmap` embeds
`JSON.parse`, which throws into the outer catch on invalid JSON), wrapped,
persisted and returned.  Returns (result, store after the call, number of
provider calls). -/
def generateRoadmapHandler (store : Store) (userId : String) (openAiKey : Option String)
    (provider : ProviderOutcome) (parseRoadmap : String → Option RoadmapContent)
    (now : Nat) : RoadmapResult × Store × Nat :=
  match getProfile store userId with
  | none =>
      (RoadmapResult.noProfile "Profile not found. Please complete onboarding first.", store, 0)
  | some profile =>
    match openAiKey with
    | none =>
        let templateRoadmap := generateTemplateRoadmap profile now
        (RoadmapResult.ok templateRoadmap,
          kvSet store (roadmapKey userId) (StoreVal.roadmapV templateRoadmap), 0)
    | some _ =>
      match provider with
      | ProviderOutcome.failure =>
          let templateRoadmap := generateTemplateRoadmap profile now
          (RoadmapResult.ok templateRoadmap,
            kvSet store (roadmapKey userId) (StoreVal.roadmapV templateRoadmap), 1)
      | ProviderOutcome.success text =>
        match parseRoadmap text with
        | none => (RoadmapResult.parseError, store, 1)
        | some roadmapContent =>
            let roadmap : Roadmap :=
              { userId := userId
                targetGoal := profile.targetGoal
                content := roadmapContent
                createdAt := now
                lastUpdated := now
                isTemplate := false }
            (RoadmapResult.ok roadmap,
              kvSet store (roadmapKey userId) (StoreVal.roadmapV roadmap), 1)

lemma jsOrI_zero (a : Option Int) : jsOrI a 0 = a.getD 0 := by
  cases a with
  | none => rfl
  | some n =>
      simp only [jsOrI, Option.getD_some]
      split <;> omega

lemma progressMerge_timeSpent (u m : String) (existing : Option ProgressRecord)
    (b : ProgressBody) (now : Nat) :
    (progressMerge u m existing b now).timeSpent = timeSpentOf existing + b.timeSpent.getD 0 := by
  cases existing with
  | none => simp [progressMerge, timeSpentOf, jsOrI_zero]
  | some p => simp [progressMerge, timeSpentOf, jsOrI_zero, Option.map_some]

lemma runProgress_timeSpent (u m : String) (calls : List (ProgressBody × Nat)) :
    ∀ start, timeSpentOf (runProgress u m start calls)
      = timeSpentOf start + (calls.map fun c => c.1.timeSpent.getD 0).sum := by
  induction calls with
  | nil => intro start; simp [runProgress]
  | cons c rest ih =>
      intro start
      obtain ⟨b, t⟩ := c
      simp only [runProgress, List.map_cons, List.sum_cons, ih]
      rw [show timeSpentOf (some (progressMerge u m start b t))
            = (progressMerge u m start b t).timeSpent from rfl]
      rw [progressMerge_timeSpent]
      ring

/-- C1: starting from no stored record, after any sequence of sequential
`POST /progress` calls for one (user, module) pair, the stored `timeSpent`
equals the sum of the submitted `timeSpent` deltas (a missing delta counts
as `0`); moreover each single call adds its delta to the prior cumulative
total rather than overwriting it. -/
theorem progress_timeSpent_accumulates (u m : String) :
    (∀ existing b now, (progressMerge u m existing b now).timeSpent
        = timeSpentOf existing + b.timeSpent.getD 0) ∧
    (∀ calls : List (ProgressBody × Nat),
        timeSpentOf (runProgress u m none calls)
          = (calls.map fun c => c.1.timeSpent.getD 0).sum) := by
  refine ⟨progressMerge_timeSpent u m, fun calls => ?_⟩
  rw [runProgress_timeSpent]
  simp [timeSpentOf]

/-- C2 counterexample: the claim "once `completedAt` is set, no later update
(including one that again submits status `completed`) changes its value" is
false.  Concretely: a first call submitting `completed` at time 1 stores
`completedAt = 1`; a second call again submitting `completed` at time 2
re-stamps it to `2` (index.tsx line 447 stamps `new Date()` whenever the
submitted status is `completed`, not only on the first transition). -/
theorem completedAt_restamped_on_repeat :
    (progressMerge "u" "m" none ⟨some "completed", none, none, none, none⟩ 1).completedAt
      = some 1 ∧
    (progressMerge "u" "m"
        (some (progressMerge "u" "m" none ⟨some "completed", none, none, none, none⟩ 1))
        ⟨some "completed", none, none, none, none⟩ 2).completedAt = some 2 := by
  decide

/-- C2 amended: `completedAt` is stamped with the current time on every call
whose submitted status is `"completed"` — a repeat submission re-stamps it
with the newer time — and on every other call it retains the prior stored
value unchanged; in particular, once set it is never cleared (not even by an
update that moves status away from `completed`). -/
theorem completedAt_stamp_rule (u m : String) (existing : Option ProgressRecord)
    (b : ProgressBody) (now : Nat) :
    ((progressMerge u m existing b now).completedAt
        = if b.status = some "completed" then some now
          else existing.bind ProgressRecord.completedAt) ∧
    ((existing.bind ProgressRecord.completedAt).isSome →
        ((progressMerge u m existing b now).completedAt).isSome) := by
  constructor
  · rfl
  · intro h
    simp only [progressMerge]
    split
    · simp
    · exact h

/-- Witness for `completedAt_stamp_rule` at a concrete input: a record
completed at time 3 keeps a set `completedAt` through an update that moves
status to `in-progress` at time 7. -/
theorem completedAt_stamp_rule_witness :
    ((progressMerge "u" "m"
        (some ⟨"u", "m", "completed", 0, none, none, [], 3, some 3⟩)
        ⟨some "in-progress", none, none, none, none⟩ 7).completedAt).isSome :=
  (completedAt_stamp_rule "u" "m"
      (some ⟨"u", "m", "completed", 0, none, none, [], 3, some 3⟩)
      ⟨some "in-progress", none, none, none, none⟩ 7).2 (by decide)

/-- C8 counterexample: the claim "`performanceScore`, `notes` and
`completedTopics` are replaced by the submitted values whenever those values
are provided" is false: a call providing `performanceScore = 0` and
`notes = ""` leaves the prior stored values `80` and `"keep"` in place,
because the handler merges with JS `||` and both provided values are falsy
(index.tsx lines 443-444). -/
theorem progress_replace_counterexample :
    (progressMerge "u" "m"
        (some ⟨"u", "m", "in-progress", 10, some 80, some "keep", ["t"], 1, none⟩)
        ⟨none, none, some 0, some "", none⟩ 2).performanceScore = some 80 ∧
    (progressMerge "u" "m"
        (some ⟨"u", "m", "in-progress", 10, some 80, some "keep", ["t"], 1, none⟩)
        ⟨none, none, some 0, some "", none⟩ 2).notes = some "keep" := by
  decide

/-- C8 amended: `performanceScore` and `notes` are replaced when a truthy
value is submitted (a nonzero score, a nonempty notes string) and retain the
prior stored value when the field is absent or a falsy value (`0`, `""`) is
submitted; `completedTopics` is replaced whenever any array is submitted
(even an empty one, arrays being truthy in JS) and otherwise retains the
prior value, defaulting to `[]`. -/
theorem progress_merge_replace_rule (u m : String) (ex : Option ProgressRecord)
    (b : ProgressBody) (now : Nat) :
    (∀ n : Int, n ≠ 0 → b.performanceScore = some n →
        (progressMerge u m ex b now).performanceScore = some n) ∧
    ((b.performanceScore = none ∨ b.performanceScore = some 0) →
        (progressMerge u m ex b now).performanceScore
          = ex.bind ProgressRecord.performanceScore) ∧
    (∀ s : String, s ≠ "" → b.notes = some s →
        (progressMerge u m ex b now).notes = some s) ∧
    ((b.notes = none ∨ b.notes = some "") →
        (progressMerge u m ex b now).notes = ex.bind ProgressRecord.notes) ∧
    (∀ l, b.completedTopics = some l →
        (progressMerge u m ex b now).completedTopics = l) ∧
    (b.completedTopics = none →
        (progressMerge u m ex b now).completedTopics
          = jsOrArr (ex.map ProgressRecord.completedTopics) []) := by
  refine ⟨fun n hn hb => ?_, fun hb => ?_, fun s hs hb => ?_, fun hb => ?_,
    fun l hb => ?_, fun hb => ?_⟩
  · simp [progressMerge, jsOrOptI, hb, hn]
  · rcases hb with hb | hb <;> simp [progressMerge, jsOrOptI, hb]
  · simp [progressMerge, jsOrOptS, hb, hs]
  · rcases hb with hb | hb <;> simp [progressMerge, jsOrOptS, hb]
  · simp [progressMerge, jsOrArr, hb]
  · simp [progressMerge, jsOrArr, hb]

/-- Witness for `progress_merge_replace_rule` at a concrete input: submitting
`performanceScore = 95` over a stored score of `80` replaces it. -/
theorem progress_merge_replace_rule_witness :
    (progressMerge "u" "m"
        (some ⟨"u", "m", "in-progress", 10, some 80, some "keep", ["t"], 1, none⟩)
        ⟨none, none, some 95, none, none⟩ 2).performanceScore = some 95 :=
  (progress_merge_replace_rule "u" "m"
      (some ⟨"u", "m", "in-progress", 10, some 80, some "keep", ["t"], 1, none⟩)
      ⟨none, none, some 95, none, none⟩ 2).1 95 (by decide) rfl

lemma updateAchievements_contains (a : Achievements) (id : String) (xp : Int) :
    (updateAchievements a id xp).unlocked.contains id = true := by
  unfold updateAchievements
  split
  · assumption
  · simp

/-- C3: achievement unlock is idempotent — applying the same
`(achievementId, xp)` update twice yields exactly the state of applying it
once (same `unlocked`, `xp`, `level`, `streak`), and when the id is already
unlocked the update is a no-op returning the unchanged state. -/
theorem achievements_unlock_idempotent (a : Achievements) (id : String) (xp : Int) :
    updateAchievements (updateAchievements a id xp) id xp = updateAchievements a id xp ∧
    (a.unlocked.contains id = true → updateAchievements a id xp = a) := by
  constructor
  · unfold updateAchievements
    rw [if_pos]
    exact updateAchievements_contains a id xp
  · intro h
    unfold updateAchievements
    rw [if_pos h]

/-- Witness for `achievements_unlock_idempotent` at a concrete input: with
`"first-steps"` already unlocked, the update returns the state unchanged. -/
theorem achievements_unlock_idempotent_witness :
    updateAchievements ⟨["first-steps"], 500, 1, 0⟩ "first-steps" 250
      = ⟨["first-steps"], 500, 1, 0⟩ :=
  (achievements_unlock_idempotent ⟨["first-steps"], 500, 1, 0⟩ "first-steps" 250).2
    (by decide)

lemma updateAchievements_level_invariant (a : Achievements) (id : String) (xp : Int)
    (h : a.level = a.xp.fdiv 1000 + 1) :
    (updateAchievements a id xp).level = (updateAchievements a id xp).xp.fdiv 1000 + 1 := by
  unfold updateAchievements
  split
  · exact h
  · rfl

/-- C4: in every achievements state reachable from the initial state
`{unlocked: [], xp: 0, level: 1, streak: 0}` by a sequence of
`POST /achievements` updates, `level = floor(xp / 1000) + 1` (the case of
every prefix of a longer sequence is the instance at that prefix). -/
theorem achievements_level_invariant (updates : List (String × Int)) :
    (runAchievements initialAchievements updates).level
      = (runAchievements initialAchievements updates).xp.fdiv 1000 + 1 := by
  have general : ∀ (updates : List (String × Int)) (a : Achievements),
      a.level = a.xp.fdiv 1000 + 1 →
      (runAchievements a updates).level = (runAchievements a updates).xp.fdiv 1000 + 1 := by
    intro updates
    induction updates with
    | nil => intro a h; exact h
    | cons u rest ih =>
        intro a h
        exact ih _ (updateAchievements_level_invariant a u.1 u.2 h)
  exact general updates initialAchievements (by decide)

lemma trimChat_length_le (l : List ChatMsg) : (trimChat l).length ≤ 50 := by
  unfold trimChat
  split
  · simp only [List.length_drop]
    omega
  · omega

lemma trimChat_suffix (l : List ChatMsg) : trimChat l <:+ l := by
  unfold trimChat
  split
  · exact List.drop_suffix _ _
  · exact List.suffix_refl l

/-- C5: on every successful `POST /chat` call, the handler appends the
timestamped user message and assistant reply to the stored history and
persists the result trimmed to the most recent 50 entries (a suffix, so
the oldest entries are trimmed first); the persisted length is at most 50
whatever the prior length was — in particular it never exceeds 50 across
any number of calls. -/
theorem chat_history_capped (apiKey userId message aiResponse : String)
    (store : Store) (now : Nat) :
    getChat ((chatHandler (some apiKey) userId message (ProviderOutcome.success aiResponse)
        store now).2.1) userId
      = trimChat (getChat store userId
          ++ [⟨"user", message, now⟩, ⟨"assistant", aiResponse, now⟩]) ∧
    trimChat (getChat store userId ++ [⟨"user", message, now⟩, ⟨"assistant", aiResponse, now⟩])
      <:+ getChat store userId ++ [⟨"user", message, now⟩, ⟨"assistant", aiResponse, now⟩] ∧
    (getChat ((chatHandler (some apiKey) userId message (ProviderOutcome.success aiResponse)
        store now).2.1) userId).length ≤ 50 := by
  have hget : getChat ((chatHandler (some apiKey) userId message
      (ProviderOutcome.success aiResponse) store now).2.1) userId
      = trimChat (getChat store userId
          ++ [⟨"user", message, now⟩, ⟨"assistant", aiResponse, now⟩]) := by
    simp [chatHandler, getChat, kvSet]
  exact ⟨hget, trimChat_suffix _, hget ▸ trimChat_length_le _⟩

/-- C9: when no OpenAI key is configured, `POST /chat` returns the canned
200 setup message with zero provider calls and the store component of the
result is the input store itself, so the stored chat history and every
other stored record are unchanged by the call. -/
theorem chat_no_key_frame (userId message : String) (provider : ProviderOutcome)
    (store : Store) (now : Nat) :
    chatHandler none userId message provider store now
      = (ChatResult.setupRequired chatSetupMessage, store, 0) ∧
    ∀ k, kvGet ((chatHandler none userId message provider store now).2.1) k = kvGet store k :=
  ⟨rfl, fun _ => rfl⟩

lemma generateTopicContent_hit (store : Store) (userId : String) (b : TopicBody)
    (c : TopicContent) (hfToken : Option String) (hf : HFOutcome)
    (parseJson : String → Option GeneratedContent) (encode : String → String) (now : Nat)
    (h : getTopicContent store userId b.moduleId b.topic = some c) :
    generateTopicContent store userId b hfToken hf parseJson encode now
      = (TopicResult.ok c, store, 0) := by
  unfold generateTopicContent
  rw [h]

/-- C7: the topic-content cache is read-through — whenever content is
stored under `topic-content:{userId}:{moduleId}:{topic}`, the handler
returns the stored content verbatim, performs no provider call, and leaves
the store untouched; hence a second call with the identical
(userId, moduleId, topic), with any key, provider outcome, parser or time,
returns content identical to the first. -/
theorem topic_content_read_through (store : Store) (userId : String) (b : TopicBody)
    (c : TopicContent) (hfToken : Option String) (hf : HFOutcome)
    (parseJson : String → Option GeneratedContent) (encode : String → String) (now : Nat)
    (h : getTopicContent store userId b.moduleId b.topic = some c) :
    generateTopicContent store userId b hfToken hf parseJson encode now
      = (TopicResult.ok c, store, 0) ∧
    ∀ (hfToken2 : Option String) (hf2 : HFOutcome)
      (parseJson2 : String → Option GeneratedContent) (encode2 : String → String) (now2 : Nat),
      (generateTopicContent
          ((generateTopicContent store userId b hfToken hf parseJson encode now).2.1)
          userId b hfToken2 hf2 parseJson2 encode2 now2).1 = TopicResult.ok c := by
  refine ⟨generateTopicContent_hit store userId b c hfToken hf parseJson encode now h,
    fun hfToken2 hf2 parseJson2 encode2 now2 => ?_⟩
  rw [generateTopicContent_hit store userId b c hfToken hf parseJson encode now h]
  rw [generateTopicContent_hit store userId b c hfToken2 hf2 parseJson2 encode2 now2 h]

/-- Witness for `topic_content_read_through` at a concrete input: a store
holding content for ("u", "m1", "Recursion") returns it unchanged even
with no key configured and a failing provider. -/
theorem topic_content_read_through_witness :
    generateTopicContent
        (kvSet (fun _ => none) (topicContentKey "u" "m1" "Recursion")
          (StoreVal.topicContentV
            ⟨"expl", [], [], [], [], [], [], "Recursion", "m1", "Algorithms", "beginner", 1⟩))
        "u" ⟨"m1", "Algorithms", "Recursion", "beginner", "Dev"⟩ none HFOutcome.fetchError
        (fun _ => none) (fun q => q) 9
      = (TopicResult.ok
          ⟨"expl", [], [], [], [], [], [], "Recursion", "m1", "Algorithms", "beginner", 1⟩,
        kvSet (fun _ => none) (topicContentKey "u" "m1" "Recursion")
          (StoreVal.topicContentV
            ⟨"expl", [], [], [], [], [], [], "Recursion", "m1", "Algorithms", "beginner", 1⟩),
        0) :=
  (topic_content_read_through
      (kvSet (fun _ => none) (topicContentKey "u" "m1" "Recursion")
        (StoreVal.topicContentV
          ⟨"expl", [], [], [], [], [], [], "Recursion", "m1", "Algorithms", "beginner", 1⟩))
      "u" ⟨"m1", "Algorithms", "Recursion", "beginner", "Dev"⟩
      ⟨"expl", [], [], [], [], [], [], "Recursion", "m1", "Algorithms", "beginner", 1⟩
      none HFOutcome.fetchError (fun _ => none) (fun q => q) 9 (by rfl)).1

/-- C10: in `POST /generate-topic-content` the cache lookup precedes the
provider-key check: a cache hit succeeds (returning the cached content,
with no write and no provider call) even when `HF_TOKEN` is not
configured, and the "not configured" error is returned only on a cache
miss with the key absent. -/
theorem topic_content_cache_before_key_check (store : Store) (userId : String)
    (b : TopicBody) (hf : HFOutcome) (parseJson : String → Option GeneratedContent)
    (encode : String → String) (now : Nat) :
    (∀ c, getTopicContent store userId b.moduleId b.topic = some c →
        generateTopicContent store userId b none hf parseJson encode now
          = (TopicResult.ok c, store, 0)) ∧
    (∀ (hfToken : Option String) (msg : String),
        (generateTopicContent store userId b hfToken hf parseJson encode now).1
          = TopicResult.notConfigured msg →
        getTopicContent store userId b.moduleId b.topic = none ∧ hfToken = none) := by
  constructor
  · intro c hc
    exact generateTopicContent_hit store userId b c none hf parseJson encode now hc
  · intro hfToken msg hmsg
    rcases hcache : getTopicContent store userId b.moduleId b.topic with _ | c
    · rcases hfToken with _ | k
      · exact ⟨rfl, rfl⟩
      · exfalso
        unfold generateTopicContent at hmsg
        rw [hcache] at hmsg
        rcases hf with _ | _ | _ | text
        · simp at hmsg
        · simp at hmsg
        · simp at hmsg
        · rcases hj : extractJson text with _ | j
          · simp [hj] at hmsg
          · rcases hg : parseJson j with _ | g
            · simp [hj, hg] at hmsg
            · simp [hj, hg] at hmsg
    · exfalso
      rw [generateTopicContent_hit store userId b c hfToken hf parseJson encode now hcache]
        at hmsg
      simp at hmsg

/-- Witness for `topic_content_cache_before_key_check` at a concrete
input: with content stored for ("u2", "m2", "Sorting") and no `HF_TOKEN`,
the call still succeeds with the cached content. -/
theorem topic_content_cache_before_key_check_witness :
    generateTopicContent
        (kvSet (fun _ => none) (topicContentKey "u2" "m2" "Sorting")
          (StoreVal.topicContentV
            ⟨"e2", [], [], [], [], [], [], "Sorting", "m2", "Algorithms", "advanced", 2⟩))
        "u2" ⟨"m2", "Algorithms", "Sorting", "advanced", "Dev"⟩ none HFOutcome.badStatus
        (fun _ => none) (fun q => q) 3
      = (TopicResult.ok
          ⟨"e2", [], [], [], [], [], [], "Sorting", "m2", "Algorithms", "advanced", 2⟩,
        kvSet (fun _ => none) (topicContentKey "u2" "m2" "Sorting")
          (StoreVal.topicContentV
            ⟨"e2", [], [], [], [], [], [], "Sorting", "m2", "Algorithms", "advanced", 2⟩),
        0) :=
  (topic_content_cache_before_key_check
      (kvSet (fun _ => none) (topicContentKey "u2" "m2" "Sorting")
        (StoreVal.topicContentV
          ⟨"e2", [], [], [], [], [], [], "Sorting", "m2", "Algorithms", "advanced", 2⟩))
      "u2" ⟨"m2", "Algorithms", "Sorting", "advanced", "Dev"⟩ HFOutcome.badStatus
      (fun _ => none) (fun q => q) 3).1
    ⟨"e2", [], [], [], [], [], [], "Sorting", "m2", "Algorithms", "advanced", 2⟩ (by rfl)

lemma jsIncludes_empty_left (sub : String) (h : sub ≠ "") : jsIncludes "" sub = false := by
  unfold jsIncludes
  simp only [decide_eq_false_iff_not]
  intro hinf
  have : sub.toList = [] := List.eq_nil_of_infix_nil hinf
  exact h (by cases sub; simp_all)

lemma templates_fs : templates "Full-Stack Developer" = fullStackDeveloperTemplate := by
  unfold templates
  rw [if_neg (by decide)]

lemma templates_ds : templates "Data Scientist" = dataScientistTemplate := by
  unfold templates
  rw [if_pos rfl]

lemma generateTemplateRoadmap_content (p : Profile) (now : Nat) :
    (generateTemplateRoadmap p now).content
      = if jsIncludes (jsOrS p.targetGoal "Full-Stack Developer") "Data Scientist" = true
        then dataScientistTemplate else fullStackDeveloperTemplate := by
  by_cases h : jsIncludes (jsOrS p.targetGoal "Full-Stack Developer") "Data Scientist" = true
  · simp [generateTemplateRoadmap, templateKeys, List.find?, h, templates_ds]
  · by_cases h2 : jsIncludes (jsOrS p.targetGoal "Full-Stack Developer")
        "Full-Stack Developer" = true <;>
      simp [generateTemplateRoadmap, templateKeys, List.find?, h, h2, templates_fs]

/-- C6: with no OpenAI key configured (and likewise when the provider call
fails), `POST /generate-roadmap` for a user with a stored profile
deterministically persists and returns the template roadmap built from the
profile; the template content is the Data Scientist template exactly when
the profile's `targetGoal` contains `"Data Scientist"`, and the Full-Stack
Developer template otherwise (including when `targetGoal` is absent). -/
theorem roadmap_template_fallback (store : Store) (userId apiKey : String) (p : Profile)
    (provider : ProviderOutcome) (parseRoadmap : String → Option RoadmapContent) (now : Nat)
    (hp : getProfile store userId = some p) :
    generateRoadmapHandler store userId none provider parseRoadmap now
      = (RoadmapResult.ok (generateTemplateRoadmap p now),
         kvSet store (roadmapKey userId) (StoreVal.roadmapV (generateTemplateRoadmap p now)),
         0) ∧
    generateRoadmapHandler store userId (some apiKey) ProviderOutcome.failure parseRoadmap now
      = (RoadmapResult.ok (generateTemplateRoadmap p now),
         kvSet store (roadmapKey userId) (StoreVal.roadmapV (generateTemplateRoadmap p now)),
         1) ∧
    (∀ g, p.targetGoal = some g → jsIncludes g "Data Scientist" = true →
        (generateTemplateRoadmap p now).content = dataScientistTemplate) ∧
    (∀ g, p.targetGoal = some g → jsIncludes g "Data Scientist" = false →
        (generateTemplateRoadmap p now).content = fullStackDeveloperTemplate) ∧
    (p.targetGoal = none →
        (generateTemplateRoadmap p now).content = fullStackDeveloperTemplate) := by
  refine ⟨?_, ?_, fun g hg hds => ?_, fun g hg hds => ?_, fun hg => ?_⟩
  · unfold generateRoadmapHandler
    rw [hp]
  · unfold generateRoadmapHandler
    rw [hp]
  · have hne : g ≠ "" := by
      intro he
      rw [he, jsIncludes_empty_left "Data Scientist" (by decide)] at hds
      exact Bool.false_ne_true hds
    rw [generateTemplateRoadmap_content]
    simp [jsOrS, hg, hne, hds]
  · rw [generateTemplateRoadmap_content]
    by_cases hne : g = ""
    · subst hne
      simp [jsOrS, hg]
      decide
    · simp [jsOrS, hg, hne, hds]
  · rw [generateTemplateRoadmap_content]
    simp [jsOrS, hg]
    decide

/-- Witness for `roadmap_template_fallback` at a concrete input: a stored
profile with target goal "Senior Data Scientist" selects the Data
Scientist template. -/
theorem roadmap_template_fallback_witness :
    (generateTemplateRoadmap
        ⟨"u", "e", "N", none, none, none, [], some "Senior Data Scientist",
          none, none, none, none, false, 0, 0⟩ 5).content = dataScientistTemplate :=
  (roadmap_template_fallback
      (kvSet (fun _ => none) (profileKey "u")
        (StoreVal.profileV
          ⟨"u", "e", "N", none, none, none, [], some "Senior Data Scientist",
            none, none, none, none, false, 0, 0⟩))
      "u" "k"
      ⟨"u", "e", "N", none, none, none, [], some "Senior Data Scientist",
        none, none, none, none, false, 0, 0⟩
      ProviderOutcome.failure (fun _ => none) 5 (by rfl)).2.2.1
    "Senior Data Scientist" rfl (by decide)

end LearnServer
